import Mathlib

/-!
Shallow embedding of the pm_tutor_bot dispatcher (src/main.py) and proofs
about its EVM calculator, calc/lesson command handlers, button dispatcher,
session defaults and long-reply chunking.

Conventions of the embedding:
* Python floats are modelled as exact rationals (ℚ); `None` becomes `Option`.
* Python strings are Lean `String`s; character-level Python operations
  (title, strip, join, startswith, split, slicing) are modelled on `.data`.
* Replies sent to the chat transport are modelled structurally (inductive
  reply types carrying the information the handler puts into the message),
  abstracting the surface number formatting of the f-strings.
* Each handler is a pure function from its inputs and the per-user session
  (the `last_topic` entry of `context.user_data`, `Option String`) to a
  reply and the updated session.
-/

/-- Result dictionary of `evm_calc` (src/main.py lines 111-120): the three
entries `SPI`, `CPI`, `EAC`, each a number or Python `None`. -/
structure EvmResult where
  SPI : Option ℚ
  CPI : Option ℚ
  EAC : Option ℚ
  deriving Repr, DecidableEq

/-- Python truthiness of an optional float: `None` and `0.0` are falsy.
Used for the guard `if res["CPI"]` (line 116) and the echo guard
`if BAC` (line 217). -/
def pyTruthy : Option ℚ → Bool
  | none => false
  | some q => q != 0

/-- `evm_calc(PV, EV, AC, BAC=None)`, src/main.py lines 111-120.
`res["SPI"] = None if PV == 0 else EV / PV`;
`res["CPI"] = None if AC == 0 else EV / AC`;
`if res["CPI"] and BAC is not None: res["EAC"] = AC + (BAC - EV) / res["CPI"]`
else `res["EAC"] = None`. -/
def evm_calc (PV EV AC : ℚ) (BAC : Option ℚ) : EvmResult :=
  let spi : Option ℚ := if PV = 0 then none else some (EV / PV)
  let cpi : Option ℚ := if AC = 0 then none else some (EV / AC)
  let eac : Option ℚ :=
    match cpi, BAC with
    | some c, some b => if c = 0 then none else some (AC + (b - EV) / c)
    | _, _ => none
  ⟨spi, cpi, eac⟩

/-- Value of a digit run as a natural number. -/
def digitsToNat (cs : List Char) : ℕ :=
  cs.foldl (fun n c => 10 * n + (c.toNat - 48)) 0

/-- Unsigned part of a Python decimal float literal: digits, optionally a
single dot with further digits, at least one digit overall. -/
def parseUnsigned (cs : List Char) : Option ℚ :=
  let intPart := cs.takeWhile Char.isDigit
  let rest := cs.dropWhile Char.isDigit
  match rest with
  | [] => if intPart.isEmpty then none else some (digitsToNat intPart : ℚ)
  | '.' :: frac =>
    if frac.all Char.isDigit ∧ ¬ (intPart.isEmpty ∧ frac.isEmpty) then
      some ((digitsToNat intPart : ℚ) + (digitsToNat frac : ℚ) / (10 ^ frac.length))
    else none
  | _ => none

/-- Python `float(s)` restricted to plain signed decimal literals (optional
sign, digits, optional fractional part); returns the exact rational value,
`none` where `float` raises `ValueError`. Exponents, `inf`/`nan` and
underscores are not modelled; no input relevant to the claims uses them.
In particular `float("evm")` raises, hence `parseNum "evm" = none`. -/
def parseNum (s : String) : Option ℚ :=
  match s.data with
  | [] => none
  | '-' :: rest => (parseUnsigned rest).map Neg.neg
  | '+' :: rest => parseUnsigned rest
  | cs => parseUnsigned cs

/-- `list(map(float, args))` inside the `try` of `calc_cmd` (line 209):
all tokens must parse, otherwise the whole conversion fails. -/
def parseAll : List String → Option (List ℚ)
  | [] => some []
  | s :: rest =>
    match parseNum s, parseAll rest with
    | some q, some qs => some (q :: qs)
    | _, _ => none

/-- Reply of `calc_cmd` (src/main.py lines 201-223), structurally:
`usage` is the wrong-argument-count message (lines 204-206), `parseError`
the "Please provide numbers" message (line 213), and `report` the formatted
result (lines 216-223) carrying the echoed raw inputs (`bacEcho` is the BAC
echo of line 217, present only when `BAC` is truthy), the SPI and CPI values
(`none` rendering as "n/a"), and the optional EAC line (line 221-222). -/
inductive CalcReply
  | usage
  | parseError
  | report (PV EV AC : ℚ) (bacEcho : Option ℚ) (spi cpi : Option ℚ) (eacLine : Option ℚ)
  deriving Repr, DecidableEq

/-- Lines 215-223 of `calc_cmd`: run `evm_calc` and build the reply lines.
Line 217 echoes BAC only when `BAC` is truthy (so `BAC = 0.0` is omitted);
lines 221-222 append the EAC line when `BAC is not None` and EAC is defined. -/
def mkReport (PV EV AC : ℚ) (BAC : Option ℚ) : CalcReply :=
  let res := evm_calc PV EV AC BAC
  CalcReply.report PV EV AC
    (if pyTruthy BAC then BAC else none)
    res.SPI res.CPI
    (if BAC ≠ none ∧ res.EAC ≠ none then res.EAC else none)

/-- `calc_cmd` (src/main.py lines 201-223) on `context.args` (the tokens
after the command word). `if len(args) not in (3, 4)` → usage message;
`float` failure on any token → parse-error message; otherwise the tokens are
read positionally as PV, EV, AC and, when present, BAC, and the report is
built. The final `usage` arm is unreachable since `parseAll` preserves
length. -/
def calc_cmd (args : List String) : CalcReply :=
  if ¬ (args.length = 3 ∨ args.length = 4) then CalcReply.usage
  else
    match parseAll args with
    | none => CalcReply.parseError
    | some [PV, EV, AC] => mkReport PV EV AC none
    | some [PV, EV, AC, BAC] => mkReport PV EV AC (some BAC)
    | some _ => CalcReply.usage

/-- The seven lesson card texts, src/main.py lines 52-108: `LESSON_CARDS` is
the dict from topic name to fixed text; lookup returns the text or misses
(`topic not in LESSON_CARDS`). Keys in declaration order: Foundations,
Planning, Risk, Delivery, EVM, Agile, Stakeholders. -/
def LESSON_CARDS (topic : String) : Option String :=
  if topic = "Foundations" then some
    ("Foundations (Governance & Tailoring)\n• Purpose & value: from idea → benefits realization\n• Key roles: sponsor, PM, steering committee, team leads\n• Governance: decision rights, escalation path\n• Tailoring: choose predictive/agile/hybrid based on uncertainty, compliance, team maturity\nChecklist: charter, governance map, benefits profile, constraints/assumptions\nSources: PMBOK7 – Principles; ISO 21502:2020 §5–6")
  else if topic = "Planning" then some
    ("Planning Essentials (Scope/Schedule/Cost)\n• Scope: WBS, deliverables, acceptance criteria\n• Schedule: activities, durations, dependencies, critical path\n• Cost: estimate → budget → baseline\nChecklist: WBS, activity list, network diagram, cost baseline\nSources: ISO 21502 §6.4; PMBOK7 – Planning/Measurement Domains")
  else if topic = "Risk" then some
    ("Risk & Quality\n• Risk: identify → analyze (qual/quant) → plan responses → monitor\n• Responses: avoid, mitigate, transfer, accept; opportunities: exploit, enhance, share\n• Quality: define metrics, standards, assurance vs control\nArtifacts: risk register, issue log, quality plan\nSources: PMBOK7 – Uncertainty; ISO 21502 §6.5")
  else if topic = "Delivery" then some
    ("Delivery Control\n• Baselines: scope, schedule, cost; manage changes formally\n• Reporting: status, variance, forecast (EAC)\n• Change control: impact analysis before approval\nArtifacts: change request, decision log, status report\nSources: PRINCE2 – Change; PMBOK7 – Measurement Domain")
  else if topic = "EVM" then some
    ("EVM Fast Track\nFormulas: SPI = EV/PV; CPI = EV/AC; EAC = AC + (BAC−EV)/CPI\nExample: BAC 500k; PV 200k; EV 180k; AC 220k → SPI .90; CPI .82; EAC ≈ 820k\nInterpretation: behind schedule, over cost; actions: descoping, leveling, risk response\nSources: PMBOK7 – Measurement Domain")
  else if topic = "Agile" then some
    ("Agile & Hybrid\n• When to hybridize: fixed regulatory milestones + agile increments\n• Scrum: roles, events, artifacts; Kanban: WIP limits, flow\nArtifacts: roadmap, release plan, Definition of Done, board metrics\nSources: PMBOK7 – Development approaches; Scrum Guide 2020 (concepts)")
  else if topic = "Stakeholders" then some
    ("Procurement & Stakeholders\n• Stakeholders: identify, analyze, plan engagement, monitor\n• Comms plan: channels, frequency, content, responsibilities\n• Procurement: make/buy, contract types, selection criteria\nArtifacts: RACI/RASCI, stakeholder register, comms matrix\nSources: ISO 21502 §6.6–6.7; PRINCE2 – Organization/Plans")
  else none

/-- `TOPIC_SLUGS = list(LESSON_CARDS.keys())`, src/main.py line 109: the
seven topic names in dict declaration order. -/
def TOPIC_SLUGS : List String :=
  ["Foundations", "Planning", "Risk", "Delivery", "EVM", "Agile", "Stakeholders"]

/-- Python `str.title()` on ASCII text: the first cased character of each
run of letters is uppercased, the following letters lowercased; non-letters
pass through and restart a word. The boolean tracks whether the previous
character was a letter. Note `"EVM".title() = "Evm"`. -/
def titleAux : Bool → List Char → List Char
  | _, [] => []
  | prev, c :: cs =>
    if c.isAlpha then
      (if prev then c.toLower else c.toUpper) :: titleAux true cs
    else
      c :: titleAux false cs

/-- Python `str.title()` (ASCII). -/
def pyTitle (s : String) : String := ⟨titleAux false s.data⟩

/-- Python `str.strip()` on ASCII whitespace: remove leading and trailing
whitespace characters. -/
def pyStrip (s : String) : String :=
  ⟨((s.data.dropWhile Char.isWhitespace).reverse.dropWhile Char.isWhitespace).reverse⟩

/-- Python `" ".join(args)`, character-level. -/
def pyJoinSpace : List String → List Char
  | [] => []
  | [s] => s.data
  | s :: rest => s.data ++ ' ' :: pyJoinSpace rest

/-- Line 165 of `lesson_cmd`: `topic = " ".join(args).strip().title()`. -/
def normalizeTopic (args : List String) : String :=
  pyTitle (pyStrip ⟨pyJoinSpace args⟩)

/-- Reply of `lesson_cmd` (src/main.py lines 158-172), structurally:
`chooseTopic` is the no-argument listing (lines 161-163) carrying the topic
list it shows; `unknownTopic` the unknown-topic message (lines 167-169)
carrying the echoed normalized topic and the topic list it shows; `card`
the lesson text (line 172). -/
inductive LessonReply
  | chooseTopic (topics : List String)
  | unknownTopic (given : String) (topics : List String)
  | card (text : String)
  deriving Repr, DecidableEq

/-- `lesson_cmd` (src/main.py lines 158-172): no args → topic listing,
session untouched; normalized topic not a key of `LESSON_CARDS` → unknown
topic message, session untouched; otherwise `context.user_data["last_topic"]
= topic` and the card text is sent. Returns (reply, updated session). -/
def lesson_cmd (args : List String) (session : Option String) :
    LessonReply × Option String :=
  match args with
  | [] => (LessonReply.chooseTopic TOPIC_SLUGS, session)
  | _ :: _ =>
    let topic := normalizeTopic args
    match LESSON_CARDS topic with
    | none => (LessonReply.unknownTopic topic TOPIC_SLUGS, session)
    | some text => (LessonReply.card text, some topic)

/-- Reply of `quiz_cmd` (src/main.py lines 174-199), structurally:
`needKey` is the missing-OPENAI_API_KEY message (lines 177-179);
`quizPrompt topic` stands for the request sent to the completion service,
whose user prompt (lines 181-185) is parameterized by the session topic. -/
inductive QuizReply
  | needKey
  | quizPrompt (topic : String)
  deriving Repr, DecidableEq

/-- `quiz_cmd` (src/main.py lines 174-199): reads
`context.user_data.get("last_topic", "Foundations")` (line 175), then checks
the client; the session is never written. `clientAvailable` models
`client is not None`. The external completion call and its try/except are
outside the embedding; both outcomes leave the session unchanged. -/
def quiz_cmd (clientAvailable : Bool) (session : Option String) :
    QuizReply × Option String :=
  let topic := session.getD "Foundations"
  if clientAvailable then (QuizReply.quizPrompt topic, session)
  else (QuizReply.needKey, session)

/-- `start` (src/main.py lines 123-139): sets
`context.user_data["last_topic"] = "Foundations"` unconditionally (the menu
reply with buttons menu_lessons / menu_quiz / menu_evm / menu_scope is
transport-side). Returns the updated session. -/
def start (_session : Option String) : Option String :=
  some "Foundations"

/-- Reply of `handle_text` before the external call (src/main.py lines
249-261), structurally: `needKey` is the missing-key message (lines
252-254); `llmQuestion topicHint q` stands for the request built from the
session topic (line 256) and the stripped user text (line 250). -/
inductive TextReply
  | needKey
  | llmQuestion (topicHint : String) (question : String)
  deriving Repr, DecidableEq

/-- Lines 249-261 of `handle_text`: strip the incoming text, answer with the
missing-key message when the client is absent, otherwise build the prompt
with `context.user_data.get("last_topic", "Foundations")`. The session is
never written. -/
def handle_text_prompt (clientAvailable : Bool) (session : Option String)
    (text : String) : TextReply :=
  let q := pyStrip text
  if clientAvailable then
    TextReply.llmQuestion (session.getD "Foundations") q
  else TextReply.needKey

/-- Python `s.startswith(p)`. -/
def pyStartsWith (s p : String) : Bool :=
  p.data.isPrefixOf s.data

/-- Python `s.split(c, 1)[1]`: everything after the first occurrence of `c`.
(`on_buttons` line 233 only evaluates this under the guard
`data.startswith("lesson_")`, where the occurrence exists.) -/
def pySplitOnceRest (c : Char) (s : String) : String :=
  ⟨(s.data.dropWhile (fun a => a != c)).drop 1⟩

/-- Reply of `on_buttons` (src/main.py lines 225-247), structurally:
one constructor per message edit the handler performs. -/
inductive ButtonReply
  | pickLesson (topics : List String)
  | card (text : String)
  | quiz (r : QuizReply)
  | evmUsage
  | scopeText
  | unknownAction
  deriving Repr, DecidableEq

/-- Outcome of one `on_buttons` run: `ok` is a completed handler with its
reply and resulting session; `fault` is an unhandled exception escaping the
handler (the `LESSON_CARDS[topic]` `KeyError` of line 235), carrying the
session as already mutated by line 234 before the raise. -/
inductive BOutcome
  | ok (r : ButtonReply) (session : Option String)
  | fault (session : Option String)
  deriving Repr, DecidableEq

/-- `on_buttons` (src/main.py lines 225-247) on the callback data string:
`menu_lessons` → lesson button list; `data.startswith("lesson_")` → write
`context.user_data["last_topic"] = data.split("_", 1)[1]` (line 234) and
send `LESSON_CARDS[topic]` (line 235), which raises `KeyError` when the
suffix is not a key; `menu_quiz` → delegate to `quiz_cmd` with the same
context; `menu_evm` → calculator usage text; `menu_scope` → scope text;
anything else → the "Unknown action." reply. -/
def on_buttons (clientAvailable : Bool) (data : String)
    (session : Option String) : BOutcome :=
  if data = "menu_lessons" then BOutcome.ok (ButtonReply.pickLesson TOPIC_SLUGS) session
  else if pyStartsWith data "lesson_" then
    let topic := pySplitOnceRest '_' data
    match LESSON_CARDS topic with
    | some text => BOutcome.ok (ButtonReply.card text) (some topic)
    | none => BOutcome.fault (some topic)
  else if data = "menu_quiz" then
    let rs := quiz_cmd clientAvailable session
    BOutcome.ok (ButtonReply.quiz rs.1) rs.2
  else if data = "menu_evm" then BOutcome.ok ButtonReply.evmUsage session
  else if data = "menu_scope" then BOutcome.ok ButtonReply.scopeText session
  else BOutcome.ok ButtonReply.unknownAction session

/-- The transport chunk limit `MAX = 3800` of `handle_text`, line 269. -/
def MAX : ℕ := 3800

/-- The slicing loop `for i in range(0, len(answer), MAX):
send answer[i:i+MAX]` (src/main.py lines 273-274), as successive
take/drop of `MAX` characters. -/
def chunkAux (s : List Char) : List (List Char) :=
  if h : s = [] then []
  else s.take MAX :: chunkAux (s.drop MAX)
termination_by s.length
decreasing_by
  simp only [List.length_drop]
  have hpos : 0 < s.length := List.length_pos.mpr h
  simp only [MAX]
  omega

/-- Lines 269-274 of `handle_text`: a completion of length at most `MAX`
is sent as one message, a longer one via the slicing loop. The completion
text is modelled as its character sequence. -/
def send_chunks (answer : List Char) : List (List Char) :=
  if answer.length ≤ MAX then [answer]
  else chunkAux answer

theorem MAX_pos : 0 < MAX := by norm_num [MAX]

theorem chunkAux_nil : chunkAux [] = [] := by
  unfold chunkAux
  rfl

theorem chunkAux_cons (s : List Char) (h : s ≠ []) :
    chunkAux s = s.take MAX :: chunkAux (s.drop MAX) := by
  conv_lhs => unfold chunkAux
  rw [dif_neg h]

theorem chunkAux_flatten (s : List Char) : (chunkAux s).flatten = s := by
  generalize hn : s.length = n
  induction n using Nat.strong_induction_on generalizing s with
  | _ n ih =>
    by_cases h : s = []
    · subst h; simp [chunkAux_nil]
    · rw [chunkAux_cons s h]
      have hlt : (s.drop MAX).length < n := by
        rw [List.length_drop]
        have h1 := List.length_pos.mpr h
        have h2 := MAX_pos
        omega
      have := ih _ hlt (s.drop MAX) rfl
      simp [this, List.take_append_drop]

theorem chunkAux_length (s : List Char) :
    (chunkAux s).length = (s.length + (MAX - 1)) / MAX := by
  generalize hn : s.length = n
  induction n using Nat.strong_induction_on generalizing s with
  | _ n ih =>
    by_cases h : s = []
    · subst h
      simp only [List.length_nil] at hn
      subst hn
      rw [chunkAux_nil]
      simp [MAX]
    · rw [chunkAux_cons s h]
      have h1 := List.length_pos.mpr h
      have hlt : (s.drop MAX).length < n := by
        rw [List.length_drop]
        have h2 := MAX_pos
        omega
      have ihd := ih _ hlt (s.drop MAX) rfl
      rw [List.length_cons, ihd, List.length_drop, hn]
      simp only [MAX]
      omega

theorem chunkAux_sizes (s : List Char) : ∀ c ∈ chunkAux s, c.length ≤ MAX := by
  generalize hn : s.length = n
  induction n using Nat.strong_induction_on generalizing s with
  | _ n ih =>
    by_cases h : s = []
    · subst h; simp [chunkAux_nil]
    · rw [chunkAux_cons s h]
      intro c hc
      rcases List.mem_cons.mp hc with hc | hc
      · subst hc; simp [List.length_take]
      · have h1 := List.length_pos.mpr h
        have hlt : (s.drop MAX).length < n := by
          rw [List.length_drop]
          have h2 := MAX_pos
          omega
        exact ih _ hlt (s.drop MAX) rfl c hc

theorem chunkAux_ne_nil (s : List Char) (h : s ≠ []) : chunkAux s ≠ [] := by
  rw [chunkAux_cons s h]
  exact List.cons_ne_nil _ _

theorem chunkAux_full_sizes (s : List Char) :
    ∀ c ∈ (chunkAux s).dropLast, c.length = MAX := by
  generalize hn : s.length = n
  induction n using Nat.strong_induction_on generalizing s with
  | _ n ih =>
    by_cases h : s = []
    · subst h; simp [chunkAux_nil]
    · rw [chunkAux_cons s h]
      by_cases hd : s.drop MAX = []
      · rw [hd, chunkAux_nil]
        simp
      · rw [List.dropLast_cons_of_ne_nil (chunkAux_ne_nil _ hd)]
        intro c hc
        rcases List.mem_cons.mp hc with hc | hc
        · subst hc
          have hlong : MAX < s.length := by
            by_contra hle
            exact hd (List.drop_of_length_le (by omega))
          simp [List.length_take]
          omega
        · have h1 := List.length_pos.mpr h
          have hlt : (s.drop MAX).length < n := by
            rw [List.length_drop]
            have h2 := MAX_pos
            omega
          exact ih _ hlt (s.drop MAX) rfl c hc

theorem quiz_cmd_session (avail : Bool) (session : Option String) :
    (quiz_cmd avail session).2 = session := by
  cases avail <;> rfl

/-- C1: for all inputs PV, EV, AC and optional BAC, `evm_calc` yields
SPI = EV/PV exactly iff PV ≠ 0, CPI = EV/AC exactly iff AC ≠ 0, and
EAC = AC + (BAC − EV)/CPI exactly iff BAC is supplied and CPI is defined
and non-zero; all other cases give the explicit undefined result, with no
fault for any input (the function is total on ℚ, negative inputs
included). -/
theorem evm_calc_guards (PV EV AC : ℚ) (BAC : Option ℚ) :
    (PV ≠ 0 → (evm_calc PV EV AC BAC).SPI = some (EV / PV)) ∧
    (PV = 0 → (evm_calc PV EV AC BAC).SPI = none) ∧
    (AC ≠ 0 → (evm_calc PV EV AC BAC).CPI = some (EV / AC)) ∧
    (AC = 0 → (evm_calc PV EV AC BAC).CPI = none) ∧
    (∀ b : ℚ, BAC = some b → AC ≠ 0 → EV / AC ≠ 0 →
      (evm_calc PV EV AC BAC).EAC = some (AC + (b - EV) / (EV / AC))) ∧
    ((BAC = none ∨ AC = 0 ∨ EV / AC = 0) → (evm_calc PV EV AC BAC).EAC = none) := by
  refine ⟨fun h => by simp [evm_calc, h], fun h => by simp [evm_calc, h],
    fun h => by simp [evm_calc, h], fun h => by simp [evm_calc, h],
    fun b hb hAC hCPI => by simp [evm_calc, hb, hAC, hCPI], ?_⟩
  rintro (h | h | h)
  · by_cases hAC : AC = 0 <;> simp [evm_calc, h, hAC]
  · cases BAC <;> simp [evm_calc, h]
  · by_cases hAC : AC = 0 <;> cases BAC <;> simp [evm_calc, h, hAC]

/-- Witness for `evm_calc_guards` at PV=2, EV=1, AC=4, BAC=8. -/
theorem evm_calc_guards_witness :
    (evm_calc 2 1 4 (some 8)).SPI = some (1 / 2) ∧
    (evm_calc 2 1 4 (some 8)).CPI = some (1 / 4) ∧
    (evm_calc 2 1 4 (some 8)).EAC = some 32 ∧
    (evm_calc 0 1 0 none).EAC = none := by
  have h := evm_calc_guards 2 1 4 (some 8)
  have h0 := evm_calc_guards 0 1 0 none
  refine ⟨h.1 (by norm_num), h.2.2.1 (by norm_num), ?_, h0.2.2.2.2.2 (Or.inl rfl)⟩
  rw [h.2.2.2.2.1 8 rfl (by norm_num) (by norm_num)]
  norm_num

/-- C2 counterexample: on PV=200000, EV=180000, AC=220000, BAC=500000 the
calculator returns EAC = 5500000/9 ≈ 611111.1, which is not ≈ 820000: it
misses 820000 by more than 82000 (a 10% tolerance). The claimed 820000
comes from the static lesson-card text, whose worked example is wrong. -/
theorem evm_scenario_eac_not_820k :
    (evm_calc 200000 180000 220000 (some 500000)).EAC = some (5500000 / 9) ∧
    ¬ |(5500000 : ℚ) / 9 - 820000| ≤ 82000 := by
  constructor
  · norm_num [evm_calc]
  · rw [abs_le]
    norm_num

/-- C2 amended: on PV=200000, EV=180000, AC=220000, BAC=500000 the
calculator returns SPI = 0.90 and CPI = 9/11 ≈ 0.8182 as claimed, and
EAC = 5500000/9 ≈ 611111 (not ≈ 820000). -/
theorem evm_scenario_values :
    (evm_calc 200000 180000 220000 (some 500000)).SPI = some (9 / 10) ∧
    (evm_calc 200000 180000 220000 (some 500000)).CPI = some (9 / 11) ∧
    |(9 : ℚ) / 11 - 8182 / 10000| ≤ 1 / 10000 ∧
    (evm_calc 200000 180000 220000 (some 500000)).EAC = some (5500000 / 9) ∧
    |(5500000 : ℚ) / 9 - 611111| ≤ 1 := by
  refine ⟨by norm_num [evm_calc], by norm_num [evm_calc], ?_, by norm_num [evm_calc], ?_⟩
  · rw [abs_le]; norm_num
  · rw [abs_le]; norm_num

/-- C3: the documented invocation `calc evm PV EV AC [BAC]` never reaches
the computation, contradicting the usage text the handler itself prints.
With BAC the literal `evm` makes five tokens, failing the count check and
returning the usage message; without BAC the four tokens pass the count but
`float("evm")` fails, returning the parse-error message. (Wrong counts or
unparseable tokens do return usage messages with no calculation, as
claimed; it is the evm-prefixed success path that cannot occur.) -/
theorem calc_evm_word_never_computes :
    calc_cmd ["evm", "200000", "180000", "220000", "500000"] = CalcReply.usage ∧
    calc_cmd ["evm", "200000", "180000", "220000"] = CalcReply.parseError := by
  constructor <;> decide

/-- C4: the lesson command cannot serve the declared topic EVM: the
normalization `.title()` maps both "EVM" and "evm" to "Evm", which is not a
key of `LESSON_CARDS`, so the handler answers with the unknown-topic
message and leaves the session topic unchanged, although the EVM card
exists (first conjunct) and the scope text documents `/lesson EVM`. -/
theorem lesson_evm_topic_unreachable :
    (LESSON_CARDS "EVM").isSome = true ∧
    lesson_cmd ["EVM"] (some "Risk") =
      (LessonReply.unknownTopic "Evm" TOPIC_SLUGS, some "Risk") ∧
    lesson_cmd ["evm"] none = (LessonReply.unknownTopic "Evm" TOPIC_SLUGS, none) := by
  refine ⟨by decide, by decide, by decide⟩

/-- C6: a lesson argument that does not match the catalog after
normalization gets the unknown-topic reply echoing the normalized topic and
listing the topic catalog, with the session left unchanged; the no-argument
form lists the topics, also leaving the session unchanged; and the listed
catalog is exactly the seven declared topics. -/
theorem lesson_unknown_topic_no_mutation (args : List String)
    (session : Option String) (hne : args ≠ [])
    (hmiss : LESSON_CARDS (normalizeTopic args) = none) :
    lesson_cmd args session =
      (LessonReply.unknownTopic (normalizeTopic args) TOPIC_SLUGS, session) ∧
    lesson_cmd [] session = (LessonReply.chooseTopic TOPIC_SLUGS, session) ∧
    TOPIC_SLUGS = ["Foundations", "Planning", "Risk", "Delivery", "EVM",
      "Agile", "Stakeholders"] := by
  refine ⟨?_, rfl, rfl⟩
  cases args with
  | nil => exact absurd rfl hne
  | cons a as => simp [lesson_cmd, hmiss]

/-- Witness for `lesson_unknown_topic_no_mutation` at the undeclared topic
"Budgeting". -/
theorem lesson_unknown_topic_no_mutation_witness :
    lesson_cmd ["Budgeting"] (some "Risk") =
      (LessonReply.unknownTopic (normalizeTopic ["Budgeting"]) TOPIC_SLUGS,
        some "Risk") :=
  (lesson_unknown_topic_no_mutation ["Budgeting"] (some "Risk")
    (by decide) (by decide)).1

/-- C8: with no session entry, quiz generation and free-text handling both
use topic Foundations, and the start command sets the session topic to
Foundations whatever it was before. -/
theorem default_topic_foundations :
    (∀ avail : Bool, quiz_cmd avail none =
      ((if avail then QuizReply.quizPrompt "Foundations" else QuizReply.needKey),
        none)) ∧
    (∀ text : String, handle_text_prompt true none text =
      TextReply.llmQuestion "Foundations" (pyStrip text)) ∧
    (∀ session : Option String, start session = some "Foundations") := by
  refine ⟨fun avail => ?_, fun text => rfl, fun session => rfl⟩
  cases avail <;> rfl

/-- C9: tokens of a calc invocation are read positionally: three or four
tokens that all parse as numbers are taken as PV, EV, AC and optional BAC
and produce the formatted report, with no `evm` word expected; the token
"evm" itself does not parse, so the working syntax omits it. -/
theorem calc_positional_without_evm_word (s0 s1 s2 s3 : String)
    (p0 p1 p2 p3 : ℚ) (h0 : parseNum s0 = some p0) (h1 : parseNum s1 = some p1)
    (h2 : parseNum s2 = some p2) (h3 : parseNum s3 = some p3) :
    calc_cmd [s0, s1, s2] = mkReport p0 p1 p2 none ∧
    calc_cmd [s0, s1, s2, s3] = mkReport p0 p1 p2 (some p3) ∧
    parseNum "evm" = none := by
  refine ⟨?_, ?_, by decide⟩ <;> simp [calc_cmd, parseAll, h0, h1, h2, h3]

/-- Witness for `calc_positional_without_evm_word` on the evm-less tokens
200000 180000 220000 [500000]. -/
theorem calc_positional_without_evm_word_witness :
    calc_cmd ["200000", "180000", "220000"] =
      mkReport 200000 180000 220000 none ∧
    calc_cmd ["200000", "180000", "220000", "500000"] =
      mkReport 200000 180000 220000 (some 500000) :=
  ⟨(calc_positional_without_evm_word "200000" "180000" "220000" "500000"
      200000 180000 220000 500000 (by decide) (by decide) (by decide)
      (by decide)).1,
   (calc_positional_without_evm_word "200000" "180000" "220000" "500000"
      200000 180000 220000 500000 (by decide) (by decide) (by decide)
      (by decide)).2.1⟩

/-- C10: a four-token calc invocation whose BAC token parses to 0 (with
AC ≠ 0 and CPI ≠ 0) computes EAC = AC + (0 − EV)/CPI — BAC = 0 counts as
supplied for the computation and for the EAC line — while the echoed raw
inputs omit BAC, because the echo guard tests Python truthiness and 0.0 is
falsy. -/
theorem calc_bac_zero_computes_eac_but_omits_echo (s0 s1 s2 s3 : String)
    (p0 p1 p2 : ℚ) (h0 : parseNum s0 = some p0) (h1 : parseNum s1 = some p1)
    (h2 : parseNum s2 = some p2) (h3 : parseNum s3 = some 0)
    (hAC : p2 ≠ 0) (hCPI : p1 / p2 ≠ 0) :
    calc_cmd [s0, s1, s2, s3] =
      CalcReply.report p0 p1 p2 none
        (if p0 = 0 then none else some (p1 / p0))
        (some (p1 / p2))
        (some (p2 + (0 - p1) / (p1 / p2))) := by
  simp [calc_cmd, parseAll, h0, h1, h2, h3, mkReport, evm_calc, pyTruthy,
    hAC, hCPI]

/-- Witness for `calc_bac_zero_computes_eac_but_omits_echo` at
PV=100, EV=50, AC=100, BAC=0 (CPI = 1/2, EAC = 0). -/
theorem calc_bac_zero_witness :
    calc_cmd ["100", "50", "100", "0"] =
      CalcReply.report 100 50 100 none (some (1 / 2)) (some (1 / 2))
        (some 0) := by
  have h := calc_bac_zero_computes_eac_but_omits_echo "100" "50" "100" "0"
    100 50 100 (by decide) (by decide) (by decide) (by decide)
    (by norm_num) (by norm_num)
  rw [h]
  norm_num

/-- C5 counterexample: the button identifier "lesson_Budgeting" is not
among the declared ones (Budgeting is not a topic), yet the handler does
not reply "unknown action" with the session unchanged: it first overwrites
the session topic with "Budgeting" and then raises an unhandled `KeyError`
on the `LESSON_CARDS` lookup. -/
theorem on_buttons_unknown_lesson_faults :
    on_buttons true "lesson_Budgeting" (some "Foundations") =
      BOutcome.fault (some "Budgeting") ∧
    "Budgeting" ∉ TOPIC_SLUGS := by
  constructor <;> decide

/-- C5 amended: the identifiers menu_lessons, menu_quiz, menu_evm,
menu_scope and lesson_<declared topic> produce their defined behavior, and
any identifier not starting with "lesson_" produces the generic unknown
action reply with the session unchanged; but an identifier of the form
lesson_<X> with X not a declared topic first sets the session topic to X
and then raises an unhandled lookup fault instead of replying. -/
theorem on_buttons_dispatch (avail : Bool) (data : String)
    (session : Option String) :
    (data = "menu_lessons" → on_buttons avail data session =
      BOutcome.ok (ButtonReply.pickLesson TOPIC_SLUGS) session) ∧
    (pyStartsWith data "lesson_" = true →
      (∀ text, LESSON_CARDS (pySplitOnceRest '_' data) = some text →
        on_buttons avail data session =
          BOutcome.ok (ButtonReply.card text)
            (some (pySplitOnceRest '_' data))) ∧
      (LESSON_CARDS (pySplitOnceRest '_' data) = none →
        on_buttons avail data session =
          BOutcome.fault (some (pySplitOnceRest '_' data)))) ∧
    (data = "menu_quiz" → on_buttons avail data session =
      BOutcome.ok (ButtonReply.quiz (quiz_cmd avail session).1) session) ∧
    (data = "menu_evm" → on_buttons avail data session =
      BOutcome.ok ButtonReply.evmUsage session) ∧
    (data = "menu_scope" → on_buttons avail data session =
      BOutcome.ok ButtonReply.scopeText session) ∧
    (data ≠ "menu_lessons" → data ≠ "menu_quiz" → data ≠ "menu_evm" →
      data ≠ "menu_scope" → pyStartsWith data "lesson_" = false →
      on_buttons avail data session =
        BOutcome.ok ButtonReply.unknownAction session) := by
  refine ⟨?_, ?_, ?_, ?_, ?_, ?_⟩
  · intro h
    subst h
    rfl
  · intro hpre
    have hml : data ≠ "menu_lessons" := by
      intro h
      subst h
      exact absurd hpre (by decide)
    constructor
    · intro text htext
      simp [on_buttons, hml, hpre, htext]
    · intro hmiss
      simp [on_buttons, hml, hpre, hmiss]
  · intro h
    subst h
    cases avail <;> rfl
  · intro h
    subst h
    rfl
  · intro h
    subst h
    rfl
  · intro h1 h2 h3 h4 hpre
    simp [on_buttons, h1, h2, h3, h4, hpre]

/-- Witness for `on_buttons_dispatch` at the menu_evm identifier. -/
theorem on_buttons_dispatch_witness :
    on_buttons true "menu_evm" none = BOutcome.ok ButtonReply.evmUsage none :=
  (on_buttons_dispatch true "menu_evm" none).2.2.2.1 rfl

/-- C7: a completion of length L at most MAX = 3800 is sent as one message;
one of length L > MAX is sent as ceil(L/MAX) = (L + 3799) / 3800 ordered
chunks whose concatenation is exactly the original text, each chunk of at
most MAX characters and every chunk except possibly the last of exactly MAX
characters. -/
theorem send_chunks_spec (answer : List Char) :
    (answer.length ≤ MAX → send_chunks answer = [answer]) ∧
    (MAX < answer.length →
      (send_chunks answer).length = (answer.length + (MAX - 1)) / MAX ∧
      (send_chunks answer).flatten = answer ∧
      (∀ c ∈ send_chunks answer, c.length ≤ MAX) ∧
      (∀ c ∈ (send_chunks answer).dropLast, c.length = MAX)) := by
  constructor
  · intro h
    simp [send_chunks, h]
  · intro h
    have hgt : ¬ answer.length ≤ MAX := by omega
    simp only [send_chunks, hgt, if_false]
    exact ⟨chunkAux_length answer, chunkAux_flatten answer,
      chunkAux_sizes answer, chunkAux_full_sizes answer⟩

/-- Witness for `send_chunks_spec` on a 3801-character text: two chunks
that concatenate back to the original. -/
theorem send_chunks_spec_witness :
    MAX < (List.replicate 3801 'a').length ∧
    (send_chunks (List.replicate 3801 'a')).length = 2 ∧
    (send_chunks (List.replicate 3801 'a')).flatten =
      List.replicate 3801 'a' := by
  have hlen : MAX < (List.replicate 3801 'a').length := by
    rw [List.length_replicate]
    norm_num [MAX]
  have h := (send_chunks_spec (List.replicate 3801 'a')).2 hlen
  refine ⟨hlen, ?_, h.2.1⟩
  rw [h.1, List.length_replicate]
  norm_num [MAX]
